import Mathlib

/-!
Verification development for the news-scraping program (utils.py,
web_scraping.py).  The Python code is shallowly embedded:

* `datetime` values are modelled at minute precision by `PyDateTime`
  (every timestamp the program stores is produced with
  `isoformat(timespec='minutes')`, and all `timedelta`s subtracted are
  whole minutes, so seconds and microseconds never influence any value
  the program keeps).
* fallible Python code returns `Except`/`Option`; the exception kinds
  that matter (`IndexError`, pandas `KeyError`, `OSError`,
  `ScrapingError`) appear as explicit error values.
* external effects (HTTP download, filesystem) are passed in as explicit
  environment parameters describing their outcome.
-/

/-- Model of a Python `datetime` truncated to minute precision. -/
structure PyDateTime where
  year : Int
  month : Nat
  day : Nat
  hour : Nat
  minute : Nat
  deriving DecidableEq, Repr

/-- Python `str.lower()` (ASCII letters, which is all the program compares). -/
def strLower (s : String) : String := String.mk (s.data.map Char.toLower)

/-- Python `str.strip()`: drop leading and trailing whitespace. -/
def strTrim (s : String) : String :=
  String.mk (((s.data.dropWhile Char.isWhitespace).reverse.dropWhile Char.isWhitespace).reverse)

/-- Does `pat` occur as a contiguous sublist of the second list? -/
def infixAt (pat : List Char) : List Char → Bool
  | [] => pat.isEmpty
  | c :: cs => List.isPrefixOf pat (c :: cs) || infixAt pat cs

/-- Python `pat in s` substring test (also `Series.str.contains` with a
pattern free of regex metacharacters). -/
def strContains (pat s : String) : Bool := infixAt pat.data s.data

/-- Constant from utils.py. -/
def DATE_NOT_FOUND : String := "DateTime Not Found"

/-- Constant from utils.py. -/
def ERROR_DATE_PROCESSING : String := "Error processing date"

/-- Numeric value of a decimal digit character. -/
def digitVal (c : Char) : Nat := c.toNat - 48

/-- The decimal digit character for `k < 10`. -/
def digitChar (k : Nat) : Char := Char.ofNat (48 + k)

/-- Fuel-driven digit rendering; the fuel only has to dominate the number
of digits (`fuel = n` always suffices), and the `fuel = 0` overflow
branch is unreachable under that use. -/
def decDigitsAux (fuel : Nat) (n : Nat) : List Char :=
  if n < 10 then [digitChar n]
  else
    match fuel with
    | 0 => []
    | f + 1 => decDigitsAux f (n / 10) ++ [digitChar (n % 10)]

/-- Decimal digit list of a natural number, most significant first:
the digits Python's `str()` prints for a nonnegative int. -/
def decDigits (n : Nat) : List Char := decDigitsAux n n

/-- Python `str()` of a nonnegative int. -/
def decString (n : Nat) : String := String.mk (decDigits n)

/-- Python `str()` of an int. -/
def intString (y : Int) : String :=
  if y < 0 then "-" ++ decString (-y).toNat else decString y.toNat

/-- Remaining digits of the first maximal digit run, accumulating its value. -/
def takeDigits (acc : Nat) : List Char → Nat
  | [] => acc
  | c :: cs => if c.isDigit then takeDigits (10 * acc + digitVal c) cs else acc

/-- Value of the first maximal run of digits in the character list, if any. -/
def firstDigitRunAux : List Char → Option Nat
  | [] => none
  | c :: cs => if c.isDigit then some (takeDigits (digitVal c) cs) else firstDigitRunAux cs

/-- Python `int(re.findall(r'\d+', s)[0])` when a digit exists:
the integer value of the first maximal digit run of `s`. -/
def firstDigitRun (s : String) : Option Nat := firstDigitRunAux s.data

/-- Python regex word character (ASCII fragment). -/
def isWordChar (c : Char) : Bool := c.isAlphanum || c == '_'

/-- Does the list start with exactly four digits followed by a
non-word character or the end of the string? -/
def fourDigitHere (cs : List Char) : Bool :=
  match cs with
  | a :: b :: c :: d :: rest =>
    a.isDigit && b.isDigit && c.isDigit && d.isDigit &&
      (match rest with
       | [] => true
       | e :: _ => !(isWordChar e))
  | _ => false

/-- Scan for a four-digit token; the boolean records whether the previous
character was a word character (so a word boundary precedes the position). -/
def hasFourDigitFrom (prevWord : Bool) : List Char → Bool
  | [] => false
  | c :: cs => (!prevWord && fourDigitHere (c :: cs)) || hasFourDigitFrom (isWordChar c) cs

/-- Python `re.search(r'\b\d{4}\b', s) is not None`. -/
def hasFourDigitToken (s : String) : Bool := hasFourDigitFrom false s.data

/-- Gregorian leap-year rule, as Python's `calendar`/`datetime` use it. -/
def isLeap (y : Int) : Bool :=
  (Int.emod y 4 == 0 && !(Int.emod y 100 == 0)) || Int.emod y 400 == 0

/-- Length in days of month `m` of year `y`. -/
def daysInMonth (y : Int) (m : Nat) : Nat :=
  if m = 2 then (if isLeap y then 29 else 28)
  else if m = 4 ∨ m = 6 ∨ m = 9 ∨ m = 11 then 30
  else 31

/-- Days since 1970-01-01 of the civil date `y-m-d`
(standard civil-from-days algorithm, era = 400 years). -/
def daysFromCivil (y : Int) (m : Nat) (d : Nat) : Int :=
  let yy : Int := if m ≤ 2 then y - 1 else y
  let era : Int := Int.ediv yy 400
  let yoe : Nat := (yy - era * 400).toNat
  let mp : Nat := if 2 < m then m - 3 else m + 9
  let doy : Nat := (153 * mp + 2) / 5 + d - 1
  let doe : Nat := yoe * 365 + yoe / 4 - yoe / 100 + doy
  era * 146097 + (doe : Int) - 719468

/-- Civil date `(year, month, day)` of a count of days since 1970-01-01. -/
def civilFromDays (z : Int) : Int × Nat × Nat :=
  let z2 : Int := z + 719468
  let era : Int := Int.ediv z2 146097
  let doe : Nat := (z2 - era * 146097).toNat
  let yoe : Nat := (doe - doe / 1460 + doe / 36524 - doe / 146096) / 365
  let y : Int := (yoe : Int) + era * 400
  let doy : Nat := doe - (365 * yoe + yoe / 4 - yoe / 100)
  let mp : Nat := (5 * doy + 2) / 153
  let d : Nat := doy - (153 * mp + 2) / 5 + 1
  let m : Nat := if mp < 10 then mp + 3 else mp - 9
  (if m ≤ 2 then y + 1 else y, m, d)

/-- Minutes since the epoch of a `PyDateTime`. -/
def toMinutes (t : PyDateTime) : Int :=
  daysFromCivil t.year t.month t.day * 1440 + (t.hour : Int) * 60 + (t.minute : Int)

/-- The `PyDateTime` of a count of minutes since the epoch. -/
def ofMinutes (n : Int) : PyDateTime :=
  let day : Int := Int.ediv n 1440
  let rem : Nat := (n - day * 1440).toNat
  let c := civilFromDays day
  ⟨c.1, c.2.1, c.2.2, rem / 60, rem % 60⟩

/-- Python `t - timedelta(minutes=k)` (also hours and days, as whole minutes). -/
def subMinutes (t : PyDateTime) (k : Int) : PyDateTime := ofMinutes (toMinutes t - k)

/-- Two-digit zero-padded decimal rendering. -/
def pad2 (n : Nat) : String := if n < 10 then "0" ++ decString n else decString n

/-- Four-digit zero-padded decimal rendering of a (nonnegative) year. -/
def pad4 (y : Int) : String :=
  let m := y.toNat
  if m < 10 then "000" ++ decString m
  else if m < 100 then "00" ++ decString m
  else if m < 1000 then "0" ++ decString m
  else decString m

/-- Python `datetime.isoformat(timespec='minutes')`. -/
def isoformatMinutes (t : PyDateTime) : String :=
  pad4 t.year ++ "-" ++ pad2 t.month ++ "-" ++ pad2 t.day ++ "T" ++
    pad2 t.hour ++ ":" ++ pad2 t.minute

/-- Python `datetime.fromisoformat` restricted to the only shape this
program ever stores, `YYYY-MM-DDTHH:MM` (the output of
`isoformat(timespec='minutes')`); on anything else the real function
raises `ValueError`, modelled as `none`. -/
def fromIsoformat (s : String) : Option PyDateTime :=
  match s.data with
  | [y1, y2, y3, y4, c1, m1, m2, c2, d1, d2, ct, h1, h2, cc, n1, n2] =>
    if y1.isDigit && y2.isDigit && y3.isDigit && y4.isDigit && c1 == '-' &&
        m1.isDigit && m2.isDigit && c2 == '-' && d1.isDigit && d2.isDigit &&
        ct == 'T' && h1.isDigit && h2.isDigit && cc == ':' && n1.isDigit && n2.isDigit then
      let y : Nat := 1000 * digitVal y1 + 100 * digitVal y2 + 10 * digitVal y3 + digitVal y4
      let mo : Nat := 10 * digitVal m1 + digitVal m2
      let d : Nat := 10 * digitVal d1 + digitVal d2
      let h : Nat := 10 * digitVal h1 + digitVal h2
      let mi : Nat := 10 * digitVal n1 + digitVal n2
      if 1 ≤ y ∧ 1 ≤ mo ∧ mo ≤ 12 ∧ 1 ≤ d ∧ d ≤ daysInMonth (y : Int) mo ∧ h ≤ 23 ∧ mi ≤ 59 then
        some ⟨(y : Int), mo, d, h, mi⟩
      else none
    else none
  | _ => none

/-- The twelve month names matched (case-insensitively) by strptime `%B`. -/
def monthNames : List (String × Nat) :=
  [("january", 1), ("february", 2), ("march", 3), ("april", 4),
   ("may", 5), ("june", 6), ("july", 7), ("august", 8),
   ("september", 9), ("october", 10), ("november", 11), ("december", 12)]

/-- Try to read one of the month names at the head of the character list,
lowercasing the input as strptime does under IGNORECASE. -/
def matchMonth : List (String × Nat) → List Char → Option (Nat × List Char)
  | [], _ => none
  | (nm, m) :: rest, cs =>
    if (cs.take nm.length).map Char.toLower == nm.data then some (m, cs.drop nm.length)
    else matchMonth rest cs

/-- Drop leading whitespace. -/
def skipWs : List Char → List Char
  | [] => []
  | c :: rest => if c.isWhitespace then skipWs rest else c :: rest

/-- Require at least one whitespace character, then drop the run
(a whitespace character in a strptime format matches `\s+`). -/
def skipWs1 : List Char → Option (List Char)
  | [] => none
  | c :: rest => if c.isWhitespace then some (skipWs rest) else none

/-- Read one or two digits, as strptime `%d` does. -/
def parseDay : List Char → Option (Nat × List Char)
  | [] => none
  | c1 :: rest =>
    if c1.isDigit then
      match rest with
      | c2 :: rest2 =>
        if c2.isDigit then some (10 * digitVal c1 + digitVal c2, rest2)
        else some (digitVal c1, rest)
      | [] => some (digitVal c1, [])
    else none

/-- Require a literal comma. -/
def expectComma : List Char → Option (List Char)
  | [] => none
  | c :: rest => if c == ',' then some rest else none

/-- Read exactly four digits ending the input, as strptime `%Y`
(pattern `\d\d\d\d`) followed by end-of-string. -/
def year4 : List Char → Option Nat
  | [a, b, c, d] =>
    if a.isDigit && b.isDigit && c.isDigit && d.isDigit then
      some (1000 * digitVal a + 100 * digitVal b + 10 * digitVal c + digitVal d)
    else none
  | _ => none

/-- Range checks done by the `datetime(year, month, day)` constructor that
strptime ends with: year at least 1 and day valid for the month. -/
def finishBdY (y m d : Nat) : Option PyDateTime :=
  if 1 ≤ y ∧ 1 ≤ d ∧ d ≤ daysInMonth (y : Int) m then some ⟨(y : Int), m, d, 0, 0⟩
  else none

/-- Python `datetime.strptime(s, '%B %d, %Y')`: full month name
(case-insensitive), whitespace, 1-2 digit day, comma, whitespace,
4-digit year, end of input; `none` models the `ValueError` raised on
mismatch or an out-of-range day. -/
def strptimeBdY (s : String) : Option PyDateTime :=
  (matchMonth monthNames s.data).bind (fun p =>
    (skipWs1 p.2).bind (fun r2 =>
      (parseDay r2).bind (fun q =>
        (expectComma q.2).bind (fun r4 =>
          (skipWs1 r4).bind (fun r5 =>
            (year4 r5).bind (fun y => finishBdY y p.1 q.1))))))

/-- Exception kinds that escape the pure fragments of the program. -/
inductive PyExc where
  | indexError
  | keyError
  deriving DecidableEq, Repr

deriving instance DecidableEq for Except

/-- utils.py `parse_date`.  The `now` parameter stands for
`datetime.now()`; the string result is the minute-precision ISO string
the Python function returns (`ERROR_DATE_PROCESSING` is its parse-failure
sentinel).  `Except.error .indexError` models the uncaught `IndexError`
raised by `re.findall(r'\d+', ...)[0]` when a relative form carries no
digits: the surrounding `except` clause only catches `ValueError`. -/
def parse_date (timestamp : String) (now : PyDateTime) : Except PyExc String :=
  if strContains "min ago" (strLower (strTrim timestamp)) ||
      strContains "mins ago" (strLower (strTrim timestamp)) then
    match firstDigitRun (strTrim timestamp) with
    | none => Except.error PyExc.indexError
    | some n => Except.ok (isoformatMinutes (subMinutes now (n : Int)))
  else if strContains "hour ago" (strLower (strTrim timestamp)) ||
      strContains "hours ago" (strLower (strTrim timestamp)) then
    match firstDigitRun (strTrim timestamp) with
    | none => Except.error PyExc.indexError
    | some n => Except.ok (isoformatMinutes (subMinutes now (60 * (n : Int))))
  else if strContains "yesterday" (strLower (strTrim timestamp)) then
    Except.ok (isoformatMinutes (subMinutes now 1440))
  else
    match strptimeBdY
        (if !(strTrim timestamp == "") && !(hasFourDigitToken (strTrim timestamp)) then
          strTrim timestamp ++ ", " ++ intString now.year
        else strTrim timestamp) with
    | none => Except.ok ERROR_DATE_PROCESSING
    | some d => Except.ok (isoformatMinutes d)

/-- Row filter of `should_continue_scraping_based_on_time`:
`(df['DateTime'] != DATE_NOT_FOUND) & (~df['DateTime'].str.contains(ERROR_DATE_PROCESSING))`. -/
def validDate (s : String) : Bool :=
  !(s == DATE_NOT_FOUND) && !(strContains ERROR_DATE_PROCESSING s)

/-- The whole-month difference the stop condition computes:
`(current.year - earliest.year) * 12 + current.month - earliest.month`. -/
def diff_in_months (now t : PyDateTime) : Int :=
  (now.year - t.year) * 12 + ((now.month : Int) - (t.month : Int))

/-- Decision taken on the selected row: `datetime.fromisoformat` failure
(`ValueError`) is caught and yields continue; otherwise the two
`MONTHS_PERIOD` comparisons from utils.py lines 111-114. -/
def stopCore (s : String) (mp : Int) (now : PyDateTime) : Bool :=
  match fromIsoformat s with
  | none => true
  | some t =>
    if mp = 0 ∧ 0 < diff_in_months now t then false
    else if 0 < mp ∧ mp ≤ diff_in_months now t then false
    else true

/-- utils.py `should_continue_scraping_based_on_time`.  The DataFrame is
represented by its `DateTime` column (the only column the function
reads); `mp` stands for the module constant `MONTHS_PERIOD` and `now`
for `datetime.now()`.  A page batch with zero articles becomes
`pd.DataFrame([])`, a frame with no columns at all, so the very first
access `df['DateTime']` raises `KeyError`: that is the `rows = []` case.
Otherwise the sentinel rows are filtered out, and if nothing remains the
function returns `True`; else it decides on the LAST remaining row
(`valid_dates_df.iloc[-1]`). -/
def should_continue_scraping_based_on_time (rows : List String) (mp : Int)
    (now : PyDateTime) : Except PyExc Bool :=
  if rows.isEmpty then Except.error PyExc.keyError
  else
    match (rows.filter validDate).getLast? with
    | none => Except.ok true
    | some s => Except.ok (stopCore s mp now)

/-- web_scraping.py `ScrapingError`. -/
inductive ScrapingError where
  | mk
  deriving DecidableEq, Repr

/-- Python `OSError` (raised by `Path.mkdir` outside the `try` block). -/
inductive OsError where
  | mk
  deriving DecidableEq, Repr

/-- Outcome of the external effects of one `download_image` call. -/
inductive ImgFetchEnv where
  /-- `mkdir`, the HTTP GET and the file write all succeed. -/
  | ok
  /-- `Path.mkdir` raises `OSError` (it runs before the `try` block). -/
  | mkdirFail
  /-- `requests.get` or `raise_for_status` raises a `RequestException`. -/
  | netFail
  /-- opening or writing the image file raises `OSError` inside the `try`. -/
  | saveFail
  deriving DecidableEq, Repr

/-- The filename utils.py builds: `f'{news_url.split("/")[-1]}.png'`. -/
def img_filename (news_url : String) : String :=
  String.mk ((news_url.data.reverse.takeWhile (fun c => !(c == '/'))).reverse) ++ ".png"

/-- utils.py `download_image`.  `mkdir` runs before the `try`, so its
`OSError` propagates to the caller; a network error or a save error is
caught and turned into the return value `None` (`Except.ok none`). -/
def download_image (news_url : String) (img_src : String) (env : ImgFetchEnv) :
    Except OsError (Option String) :=
  match env with
  | ImgFetchEnv.mkdirFail => Except.error OsError.mk
  | ImgFetchEnv.netFail => Except.ok none
  | ImgFetchEnv.saveFail => Except.ok none
  | ImgFetchEnv.ok => Except.ok (some (img_filename news_url))

/-- One row of the DataFrame `fetch_results` builds; `Image` is
`Option String` because `download_image` can return Python `None`. -/
structure Article where
  URL : String
  Title : String
  Description : String
  Image : Option String
  DateTime : String
  deriving DecidableEq, Repr

/-- One `PagePromo` result element, described by what the extraction code
can observe of it: each sub-element lookup either yields a value or
raises (`none`), plus the environment for the image download. -/
structure PagePromo where
  /-- `href` of the `Link` sub-element; `none` means `find_element('Link')` raises. -/
  link : Option String
  /-- the `data-gtm-region` attribute (`get_attribute` returns Python
  `None` for a missing attribute, which `str()` renders as `"None"`). -/
  titleAttr : Option String
  /-- text of the `PagePromo-description` sub-element; `none` means the lookup raises. -/
  descr : Option String
  /-- `src` of the `Image` sub-element; `none` means the lookup raises. -/
  imgSrc : Option String
  /-- outcome of the image download effects. -/
  imgEnv : ImgFetchEnv
  /-- text of the `Timestamp-template-now` sub-element, if present. -/
  tsNow : Option String
  /-- text of the `Timestamp-template` sub-element, if present. -/
  tsStd : Option String
  deriving DecidableEq, Repr

/-- Inner fallback of the nested `try` blocks for the `DateTime` field:
try `Timestamp-template`, else the literal `'DateTime Not Available'`.
Any exception from `parse_date` (the `IndexError` case) is caught by the
bare `except Exception`. -/
def datetimeFallback (tsStd : Option String) (now : PyDateTime) : String :=
  match tsStd with
  | none => "DateTime Not Available"
  | some txt =>
    match parse_date txt now with
    | Except.ok s => s
    | Except.error _ => "DateTime Not Available"

/-- The `DateTime` field: try `Timestamp-template-now` first, then fall
back (web_scraping.py lines 174-180). -/
def datetimeField (tsNow tsStd : Option String) (now : PyDateTime) : String :=
  match tsNow with
  | none => datetimeFallback tsStd now
  | some txt =>
    match parse_date txt now with
    | Except.ok s => s
    | Except.error _ => datetimeFallback tsStd now

/-- The article dict built for one element once its `URL` was read
successfully (web_scraping.py lines 160-180). -/
def buildArticle (url : String) (e : PagePromo) (now : PyDateTime) : Article :=
  { URL := url
    Title := e.titleAttr.getD "None"
    Description := e.descr.getD ""
    Image :=
      match e.imgSrc with
      | none => some "Image Not Available"
      | some src =>
        match download_image url src e.imgEnv with
        | Except.error _ => some "Image Not Available"
        | Except.ok r => r
    DateTime := datetimeField e.tsNow e.tsStd now }

/-- Extraction of one element: the `URL` lookup is NOT inside a `try`,
so a missing `Link` sub-element makes the whole element raise. -/
def extractArticle (e : PagePromo) (now : PyDateTime) : Option Article :=
  e.link.map (fun u => buildArticle u e now)

/-- The `for article in news_elements` loop: one raised element aborts
the whole loop. -/
def extractAll (els : List PagePromo) (now : PyDateTime) : Option (List Article) :=
  match els with
  | [] => some []
  | e :: rest =>
    (extractArticle e now).bind (fun a => (extractAll rest now).map (fun l => a :: l))

/-- web_scraping.py `fetch_results` (the per-page parsing part): any
exception inside is caught by the outer `except` and re-raised as
`ScrapingError`. -/
def fetch_results (els : List PagePromo) (now : PyDateTime) :
    Except ScrapingError (List Article) :=
  match extractAll els now with
  | none => Except.error ScrapingError.mk
  | some arts => Except.ok arts

/-- Post-retry outcome of one page iteration of the scraping loop:
what `fetch_results()` and `navigate_to_next_page()` deliver to
`start_scraping` (after their retry decorators, which re-raise only
`ScrapingError`). -/
structure PageStep where
  fetch : Except ScrapingError (List Article)
  nav : Except ScrapingError Unit
  deriving DecidableEq, Repr

/-- The `while self.scrape_continues` loop of web_scraping.py
`start_scraping`: a `ScrapingError` from fetch or navigation is caught,
sets the flag false and ends the loop with the data collected so far; a
`KeyError` from the stop condition is NOT caught and propagates.  The
finite `steps` list drives the environment; an exhausted list models a
run observed for that many iterations. -/
def scrapeLoop (mp : Int) (now : PyDateTime) :
    List PageStep → List Article → Except PyExc (List Article)
  | [], acc => Except.ok acc
  | s :: rest, acc =>
    match s.fetch with
    | Except.error _ => Except.ok acc
    | Except.ok page =>
      match should_continue_scraping_based_on_time (page.map Article.DateTime) mp now with
      | Except.error e => Except.error e
      | Except.ok cont =>
        if cont then
          match s.nav with
          | Except.error _ => Except.ok (acc ++ page)
          | Except.ok _ => scrapeLoop mp now rest (acc ++ page)
        else Except.ok (acc ++ page)

/-- web_scraping.py `start_scraping`, from the first page fetch on
(search and filter application precede the loop and collect no data). -/
def start_scraping (steps : List PageStep) (mp : Int) (now : PyDateTime) :
    Except PyExc (List Article) :=
  scrapeLoop mp now steps []

/-- A page iteration whose fetch succeeds with batch `p` and whose
navigation succeeds. -/
def mkGoodStep (p : List Article) : PageStep :=
  ⟨Except.ok p, Except.ok ()⟩

/-- Result of one call of an operation wrapped by the retry decorator
(`attempt` numbering starts at 1). -/
inductive AttemptResult (A : Type) where
  /-- the call returns `a`. -/
  | ok (a : A)
  /-- the call raises `ScrapingError` (the retryable kind). -/
  | transient
  /-- the call raises some other exception. -/
  | fatal
  deriving DecidableEq

/-- Final outcome of the retry wrapper. -/
inductive RetryOutcome (A : Type) where
  /-- a call returned `a`. -/
  | success (a : A)
  /-- the last allowed attempt raised the transient kind; it is re-raised. -/
  | transientFailure
  /-- some call raised a non-retryable exception; it propagates at once. -/
  | fatalFailure
  deriving DecidableEq

/-- Modelled from the spec: backoff delay before retrying `attempt`,
exponential from a 1-unit base and capped at 10 units (the tenacity
`wait_exponential(multiplier=1, max=10)` configuration is third-party
code not present under src/). -/
def retryDelay (attempt : Nat) : Nat := min (2 ^ (attempt - 1)) 10

/-- Modelled from the spec: run the operation starting at attempt number
`attempt` with `remaining` attempts allowed (tenacity
`stop_after_attempt`, `retry_if_exception_type(ScrapingError)` and
`reraise=True` are third-party code not present under src/).  Returns
the outcome together with the list of backoff waits performed. -/
def retryFrom (op : Nat → AttemptResult A) (attempt : Nat) :
    Nat → RetryOutcome A × List Nat
  | 0 => (RetryOutcome.transientFailure, [])
  | 1 =>
    (match op attempt with
     | AttemptResult.ok a => (RetryOutcome.success a, [])
     | AttemptResult.transient => (RetryOutcome.transientFailure, [])
     | AttemptResult.fatal => (RetryOutcome.fatalFailure, []))
  | n + 2 =>
    match op attempt with
    | AttemptResult.ok a => (RetryOutcome.success a, [])
    | AttemptResult.fatal => (RetryOutcome.fatalFailure, [])
    | AttemptResult.transient =>
      let r := retryFrom op (attempt + 1) (n + 1)
      (r.1, retryDelay attempt :: r.2)

/-- Modelled from the spec: the retry policy used by every browser
interaction — at most 3 total attempts. -/
def retryRun (op : Nat → AttemptResult A) : RetryOutcome A × List Nat :=
  retryFrom op 1 3

/-- Concrete reference instant used by the witnesses: 2024-03-15 12:00. -/
def now2024 : PyDateTime := ⟨2024, 3, 15, 12, 0⟩

/-- Reference instant just after a leap-month boundary: 2024-03-01 01:30. -/
def nowMar1 : PyDateTime := ⟨2024, 3, 1, 1, 30⟩

/-- Operation failing on attempts 1 and 2 and succeeding on attempt 3. -/
def opThirdOk : Nat → AttemptResult Nat :=
  fun n => if n ≤ 2 then AttemptResult.transient else AttemptResult.ok 7

/-- Operation raising the transient error on every call. -/
def opAllFail : Nat → AttemptResult Nat := fun _ => AttemptResult.transient

/-- Operation raising a non-retryable exception on every call. -/
def opFatal : Nat → AttemptResult Nat := fun _ => AttemptResult.fatal

/-- A fully well-behaved result element. -/
def promoGood : PagePromo :=
  ⟨some "https://site/news/a", some "Title A", some "Desc A", none,
    ImgFetchEnv.ok, none, none⟩

/-- An element whose `Link` sub-element lookup raises. -/
def promoNoLink : PagePromo :=
  ⟨none, some "Title B", some "Desc B", none, ImgFetchEnv.ok, none, none⟩

/-- An element with an image source whose download fails on the network. -/
def promoNetFail : PagePromo :=
  ⟨some "https://site/news/picture", some "Title C", some "Desc C",
    some "https://cdn/img.jpg", ImgFetchEnv.netFail, none, none⟩

/-- An article dated inside the witness reference month. -/
def artRecent : Article := ⟨"u1", "T1", "D1", none, "2024-03-10T09:00"⟩

/-- An article more than one month older than the witness reference. -/
def artOld : Article := ⟨"u2", "T2", "D2", none, "2023-01-10T09:00"⟩

example : isoformatMinutes ⟨2024, 3, 4, 9, 5⟩ = "2024-03-04T09:05" := by decide
example : subMinutes ⟨2024, 3, 1, 1, 30⟩ 120 = ⟨2024, 2, 29, 23, 30⟩ := by decide
example : subMinutes ⟨2023, 3, 1, 1, 30⟩ 1440 = ⟨2023, 2, 28, 1, 30⟩ := by decide
example : firstDigitRun "about 12 mins ago 9" = some 12 := by decide
example : hasFourDigitToken "March 4, 2024" = true := by decide
example : hasFourDigitToken "March 4" = false := by decide
example : hasFourDigitToken "a12345b" = false := by decide
example : fromIsoformat "2024-03-04T09:05" = some ⟨2024, 3, 4, 9, 5⟩ := by decide
example : fromIsoformat "DateTime Not Available" = none := by decide
example : strptimeBdY "March 4, 2024" = some ⟨2024, 3, 4, 0, 0⟩ := by decide
example : strptimeBdY "not a date, 2024" = none := by decide
example : strptimeBdY "February 30, 2023" = none := by decide
example : strptimeBdY "february 29, 2024" = some ⟨2024, 2, 29, 0, 0⟩ := by decide
example : parse_date "2 hours ago" ⟨2024, 3, 1, 1, 30⟩ = Except.ok "2024-02-29T23:30" := by decide
example : parse_date " 12 mins ago" ⟨2024, 3, 1, 1, 30⟩ = Except.ok "2024-03-01T01:18" := by decide
example : parse_date "Yesterday" ⟨2024, 3, 1, 1, 30⟩ = Except.ok "2024-02-29T01:30" := by decide
example : parse_date "March 4" ⟨2024, 3, 1, 1, 30⟩ = Except.ok "2024-03-04T00:00" := by decide
example : parse_date "March 4, 2020" ⟨2024, 3, 1, 1, 30⟩ = Except.ok "2020-03-04T00:00" := by decide
example : parse_date "not a date" ⟨2024, 3, 1, 1, 30⟩ = Except.ok ERROR_DATE_PROCESSING := by decide
example : parse_date "min ago" ⟨2024, 3, 1, 1, 30⟩ = Except.error PyExc.indexError := by decide
example : parse_date "hours ago" ⟨2024, 3, 1, 1, 30⟩ = Except.error PyExc.indexError := by decide

/-- A row passing the filter and appended last is the row the stop
condition selects. -/
theorem filter_concat_getLast (l : List String) (s : String)
    (hs : validDate s = true) :
    ((l ++ [s]).filter validDate).getLast? = some s := by
  rw [List.filter_append]
  have h1 : [s].filter validDate = [s] := by simp [List.filter, hs]
  rw [h1, List.getLast?_concat]

/-- Evaluation of the stop condition on a batch whose last row passes
the filter: the decision is `stopCore` of that last row. -/
theorem should_continue_concat (l : List String) (s : String) (mp : Int)
    (now : PyDateTime) (hs : validDate s = true) :
    should_continue_scraping_based_on_time (l ++ [s]) mp now =
      Except.ok (stopCore s mp now) := by
  unfold should_continue_scraping_based_on_time
  rw [if_neg (by simp)]
  rw [filter_concat_getLast l s hs]

/-- Value of `stopCore` on a parseable row when `MONTHS_PERIOD = 0`. -/
theorem stopCore_zero (s : String) (t now : PyDateTime)
    (ht : fromIsoformat s = some t) :
    stopCore s 0 now = if 0 < diff_in_months now t then false else true := by
  simp only [stopCore, ht]
  by_cases hd : 0 < diff_in_months now t
  · simp [hd]
  · simp [hd]

/-- Value of `stopCore` on a parseable row when `MONTHS_PERIOD > 0`. -/
theorem stopCore_pos (s : String) (t now : PyDateTime) (mp : Int)
    (hmp : 0 < mp) (ht : fromIsoformat s = some t) :
    stopCore s mp now = if mp ≤ diff_in_months now t then false else true := by
  have h0 : ¬ mp = 0 := by omega
  simp only [stopCore, ht]
  by_cases hd : mp ≤ diff_in_months now t
  · simp [hd, hmp, h0]
  · simp [hd, h0]

/-- C1, counterexample: a batch whose LAST row is the date-not-found
sentinel but whose earlier row carries an old valid date makes the stop
condition return False (stop), because the sentinel row is filtered out
and the decision falls on the earlier row — contradicting the claim that
such batches always continue regardless of earlier articles. -/
theorem should_continue_last_sentinel_stops :
    validDate DATE_NOT_FOUND = false ∧
    should_continue_scraping_based_on_time ["2000-01-01T00:00", DATE_NOT_FOUND] 1 now2024 =
      Except.ok false := by
  decide

/-- C1, amended: a NON-empty batch all of whose rows hold sentinel values
(the date-not-found sentinel or a parse-error value) makes the stop
condition return True; an empty batch instead raises `KeyError`, because
the frame built from an empty article list has no `DateTime` column. -/
theorem should_continue_sentinel_or_empty (rows : List String) (mp : Int)
    (now : PyDateTime) :
    (rows ≠ [] → (∀ s ∈ rows, validDate s = false) →
      should_continue_scraping_based_on_time rows mp now = Except.ok true) ∧
    should_continue_scraping_based_on_time [] mp now = Except.error PyExc.keyError := by
  constructor
  · intro hne hall
    obtain ⟨a, l, rfl⟩ : ∃ a l, rows = a :: l := by
      cases rows with
      | nil => exact absurd rfl hne
      | cons a l => exact ⟨a, l, rfl⟩
    unfold should_continue_scraping_based_on_time
    rw [if_neg (by simp)]
    have hf : (a :: l).filter validDate = [] := by
      rw [List.filter_eq_nil_iff]
      intro s hs
      simp [hall s hs]
    rw [hf]
    rfl
  · rfl

/-- C1, witness for the amended theorem at a concrete all-sentinel batch
and for the empty batch. -/
theorem should_continue_sentinel_or_empty_witness :
    should_continue_scraping_based_on_time [DATE_NOT_FOUND, ERROR_DATE_PROCESSING] 1 now2024 =
      Except.ok true ∧
    should_continue_scraping_based_on_time [] 1 now2024 = Except.error PyExc.keyError :=
  ⟨(should_continue_sentinel_or_empty [DATE_NOT_FOUND, ERROR_DATE_PROCESSING] 1 now2024).1
      (by decide) (by decide),
   (should_continue_sentinel_or_empty [] 1 now2024).2⟩

/-- C2, counterexample: with `MONTHS_PERIOD = 0`, a last article dated in
the month AFTER the current one is outside the current calendar month,
yet the stop condition continues (the code only stops when the
whole-month difference is strictly positive, i.e. on strictly earlier
months) — contradicting "stop iff not in the current calendar month". -/
theorem should_continue_future_month_continues :
    fromIsoformat "2024-04-01T00:00" = some ⟨2024, 4, 1, 0, 0⟩ ∧
    (⟨2024, 4, 1, 0, 0⟩ : PyDateTime).month ≠ now2024.month ∧
    should_continue_scraping_based_on_time ["2024-04-01T00:00"] 0 now2024 =
      Except.ok true := by
  decide

/-- C2, amended: for a batch whose last row parses as instant `t` and
`MONTHS_PERIOD = 0`, the stop condition stops iff `t` lies in a calendar
month STRICTLY EARLIER than the current one (whole-month difference
positive), and continues iff the difference is non-positive (current
month or any future month). -/
theorem should_continue_months_period_zero (l : List String) (s : String)
    (t now : PyDateTime) (hs : validDate s = true) (ht : fromIsoformat s = some t) :
    (should_continue_scraping_based_on_time (l ++ [s]) 0 now = Except.ok false ↔
      0 < diff_in_months now t) ∧
    (should_continue_scraping_based_on_time (l ++ [s]) 0 now = Except.ok true ↔
      diff_in_months now t ≤ 0) := by
  rw [should_continue_concat l s 0 now hs, stopCore_zero s t now ht]
  by_cases hd : 0 < diff_in_months now t
  · rw [if_pos hd]
    simp [hd, (by omega : ¬ diff_in_months now t ≤ 0)]
  · rw [if_neg hd]
    simp [hd, (by omega : diff_in_months now t ≤ 0)]

/-- C2, witness for the amended theorem: December 2023 viewed from March
2024 has whole-month difference 3 > 0, so the run stops. -/
theorem should_continue_months_period_zero_witness :
    validDate "2023-12-15T08:00" = true ∧
    fromIsoformat "2023-12-15T08:00" = some ⟨2023, 12, 15, 8, 0⟩ ∧
    (should_continue_scraping_based_on_time
        (["2024-03-01T10:00"] ++ ["2023-12-15T08:00"]) 0 now2024 = Except.ok false ↔
      0 < diff_in_months now2024 ⟨2023, 12, 15, 8, 0⟩) :=
  ⟨by decide, by decide,
   (should_continue_months_period_zero ["2024-03-01T10:00"] "2023-12-15T08:00"
      ⟨2023, 12, 15, 8, 0⟩ now2024 (by decide) (by decide)).1⟩

/-- C3: for a batch whose last row parses as instant `t` and
`MONTHS_PERIOD = N > 0`, the stop condition stops iff
`(now.year - t.year) * 12 + (now.month - t.month) >= N` and continues
iff that difference is `< N`. -/
theorem should_continue_months_period_positive (l : List String) (s : String)
    (t now : PyDateTime) (mp : Int) (hmp : 0 < mp)
    (hs : validDate s = true) (ht : fromIsoformat s = some t) :
    (should_continue_scraping_based_on_time (l ++ [s]) mp now = Except.ok false ↔
      mp ≤ diff_in_months now t) ∧
    (should_continue_scraping_based_on_time (l ++ [s]) mp now = Except.ok true ↔
      diff_in_months now t < mp) := by
  rw [should_continue_concat l s mp now hs, stopCore_pos s t now mp hmp ht]
  by_cases hd : mp ≤ diff_in_months now t
  · rw [if_pos hd]
    simp [hd, (by omega : ¬ diff_in_months now t < mp)]
  · rw [if_neg hd]
    simp [hd, (by omega : diff_in_months now t < mp)]

/-- C3, witness: January 2020 viewed from March 2024 has whole-month
difference 50, which is at least 3, so with `MONTHS_PERIOD = 3` the run
stops. -/
theorem should_continue_months_period_positive_witness :
    (0 : Int) < 3 ∧ validDate "2020-01-15T10:30" = true ∧
    fromIsoformat "2020-01-15T10:30" = some ⟨2020, 1, 15, 10, 30⟩ ∧
    (should_continue_scraping_based_on_time ([] ++ ["2020-01-15T10:30"]) 3 now2024 =
        Except.ok false ↔
      (3 : Int) ≤ diff_in_months now2024 ⟨2020, 1, 15, 10, 30⟩) :=
  ⟨by decide, by decide, by decide,
   (should_continue_months_period_positive [] "2020-01-15T10:30" ⟨2020, 1, 15, 10, 30⟩
      now2024 3 (by decide) (by decide) (by decide)).1⟩

/-- C10: the extraction sentinel `'DateTime Not Available'` (written when
both timestamp sub-elements are missing) differs from the two strings the
stop-condition filter removes, so a batch ending in it keeps that row,
selects it as the decision row, fails `datetime.fromisoformat` on it, and
returns True through the `ValueError` fallback — not through sentinel
filtering. -/
theorem datetime_not_available_passes_filter (l : List String) (mp : Int)
    (now : PyDateTime) (u : String) (tA dA imgSrc : Option String) (env : ImgFetchEnv) :
    validDate "DateTime Not Available" = true ∧
    fromIsoformat "DateTime Not Available" = none ∧
    ((l ++ ["DateTime Not Available"]).filter validDate).getLast? =
      some "DateTime Not Available" ∧
    should_continue_scraping_based_on_time (l ++ ["DateTime Not Available"]) mp now =
      Except.ok true ∧
    (buildArticle u ⟨some u, tA, dA, imgSrc, env, none, none⟩ now).DateTime =
      "DateTime Not Available" := by
  refine ⟨by decide, by decide, filter_concat_getLast l _ (by decide), ?_, rfl⟩
  rw [should_continue_concat l _ mp now (by decide)]
  rfl

/-- C4: `parse_date` does NOT always return a value — on an input that
matches a relative form but carries no digits, `re.findall(r'\d+', ...)`
returns the empty list, indexing it raises `IndexError`, and the
surrounding `except` clause only catches `ValueError`, so the exception
escapes to the caller (here for every reference instant `now`). -/
theorem parse_date_min_ago_raises (now : PyDateTime) :
    parse_date "min ago" now = Except.error PyExc.indexError ∧
    parse_date "hours ago" now = Except.error PyExc.indexError := by
  exact ⟨rfl, rfl⟩

/-- Extraction of a whole page aborts exactly when some element's `Link`
sub-element is missing. -/
theorem extractAll_none_iff (els : List PagePromo) (now : PyDateTime) :
    extractAll els now = none ↔ ∃ e ∈ els, e.link = none := by
  induction els with
  | nil => simp [extractAll]
  | cons e rest ih =>
    cases hl : e.link with
    | none =>
      simp only [extractAll, extractArticle, hl, Option.map_none, Option.none_bind]
      exact iff_of_true rfl ⟨e, List.mem_cons_self e rest, hl⟩
    | some u =>
      simp [extractAll, extractArticle, hl, ih, Option.bind_eq_none]

/-- Successful extraction yields one article per element. -/
theorem extractAll_some_length (els : List PagePromo) (now : PyDateTime)
    (arts : List Article) (h : extractAll els now = some arts) :
    arts.length = els.length := by
  induction els generalizing arts with
  | nil =>
    simp [extractAll] at h
    subst h
    rfl
  | cons e rest ih =>
    cases hl : extractArticle e now with
    | none => rw [extractAll, hl] at h; simp at h
    | some a =>
      cases hx : extractAll rest now with
      | none => rw [extractAll, hl, hx] at h; simp at h
      | some l =>
        rw [extractAll, hl, hx] at h
        simp at h
        subst h
        simp [ih l hx]

/-- C5, counterexample: one element whose `Link` sub-element is missing
makes the whole `fetch_results` call raise `ScrapingError`, so even the
perfectly extractable first article of the page is dropped —
contradicting the claim that a url-field failure affects at most that
single article and never drops the batch. -/
theorem fetch_results_link_failure_drops_batch :
    promoNoLink.link = none ∧
    fetch_results [promoGood, promoNoLink] now2024 = Except.error ScrapingError.mk := by
  decide

/-- C5, amended: a failure to extract the url field (missing `Link`
sub-element) is FATAL for the whole page: `fetch_results` raises
`ScrapingError` and emits nothing.  Failures of the other fields never
drop the batch: when every element has its link, the fetch succeeds and
emits exactly one article per element. -/
theorem fetch_results_url_failure (els : List PagePromo) (now : PyDateTime) :
    ((∃ e ∈ els, e.link = none) → fetch_results els now = Except.error ScrapingError.mk) ∧
    ((∀ e ∈ els, e.link ≠ none) →
      ∃ arts, fetch_results els now = Except.ok arts ∧ arts.length = els.length) := by
  constructor
  · intro hex
    unfold fetch_results
    rw [(extractAll_none_iff els now).mpr hex]
  · intro hall
    cases hx : extractAll els now with
    | none =>
      obtain ⟨e, he, hl⟩ := (extractAll_none_iff els now).mp hx
      exact absurd hl (hall e he)
    | some arts =>
      refine ⟨arts, ?_, extractAll_some_length els now arts hx⟩
      unfold fetch_results
      rw [hx]

/-- C5, witness for the amended theorem: a page with a good element and a
link-less element raises; a page of two linked elements (one of them with
a failing image download) yields two articles. -/
theorem fetch_results_url_failure_witness :
    (∃ e ∈ [promoGood, promoNoLink], e.link = none) ∧
    fetch_results [promoGood, promoNoLink] now2024 = Except.error ScrapingError.mk ∧
    (∀ e ∈ [promoGood, promoNetFail], e.link ≠ none) ∧
    ∃ arts, fetch_results [promoGood, promoNetFail] now2024 = Except.ok arts ∧
      arts.length = 2 :=
  ⟨⟨promoNoLink, by simp, rfl⟩,
   (fetch_results_url_failure [promoGood, promoNoLink] now2024).1 ⟨promoNoLink, by simp, rfl⟩,
   by decide,
   (fetch_results_url_failure [promoGood, promoNetFail] now2024).2 (by decide)⟩

/-- C6, counterexample: on a network failure `download_image` returns
Python `None` (it catches the exception and returns `None`), so the
article's `Image` field holds `None` and NOT the designated
`'Image Not Available'` sentinel, while the element is still emitted with
its other fields — contradicting the claim that every image failure
yields the sentinel. -/
theorem image_network_failure_not_sentinel :
    fetch_results [promoNetFail] now2024 =
      Except.ok [buildArticle "https://site/news/picture" promoNetFail now2024] ∧
    (buildArticle "https://site/news/picture" promoNetFail now2024).Image = none ∧
    (buildArticle "https://site/news/picture" promoNetFail now2024).Image ≠
      some "Image Not Available" ∧
    (buildArticle "https://site/news/picture" promoNetFail now2024).Title = "Title C" := by
  decide

/-- C6, amended: a missing `Image` sub-element yields the sentinel
`'Image Not Available'`, and so does an `OSError` from the folder
creation (it runs before `download_image`'s `try`, so it raises into the
caller's handler); but a network failure or a filesystem failure while
saving is caught inside `download_image`, which returns `None`, so the
field holds `None` instead of the sentinel.  In every case the article is
emitted and all other fields are populated exactly as without an image
failure. -/
theorem image_failure_modes (url : String) (tA dA : Option String) (src : String)
    (env : ImgFetchEnv) (tsN tsS : Option String) (now : PyDateTime) :
    ((buildArticle url ⟨some url, tA, dA, none, env, tsN, tsS⟩ now).Image =
      some "Image Not Available") ∧
    (env = ImgFetchEnv.mkdirFail →
      (buildArticle url ⟨some url, tA, dA, some src, env, tsN, tsS⟩ now).Image =
        some "Image Not Available") ∧
    (env = ImgFetchEnv.netFail ∨ env = ImgFetchEnv.saveFail →
      (buildArticle url ⟨some url, tA, dA, some src, env, tsN, tsS⟩ now).Image = none) ∧
    (env = ImgFetchEnv.ok →
      (buildArticle url ⟨some url, tA, dA, some src, env, tsN, tsS⟩ now).Image =
        some (img_filename url)) ∧
    (buildArticle url ⟨some url, tA, dA, some src, env, tsN, tsS⟩ now).URL = url ∧
    (buildArticle url ⟨some url, tA, dA, some src, env, tsN, tsS⟩ now).Title =
      tA.getD "None" ∧
    (buildArticle url ⟨some url, tA, dA, some src, env, tsN, tsS⟩ now).Description =
      dA.getD "" ∧
    (buildArticle url ⟨some url, tA, dA, some src, env, tsN, tsS⟩ now).DateTime =
      datetimeField tsN tsS now := by
  refine ⟨rfl, ?_, ?_, ?_, rfl, rfl, rfl, rfl⟩
  · rintro rfl
    rfl
  · rintro (rfl | rfl) <;> rfl
  · rintro rfl
    rfl

/-- C6, witness for the amended theorem at the network-failure case. -/
theorem image_failure_modes_witness :
    (ImgFetchEnv.netFail = ImgFetchEnv.netFail ∨
      ImgFetchEnv.netFail = ImgFetchEnv.saveFail) ∧
    (buildArticle "https://site/news/picture"
        ⟨some "https://site/news/picture", some "Title C", some "Desc C",
          some "https://cdn/img.jpg", ImgFetchEnv.netFail, none, none⟩ now2024).Image =
      none :=
  ⟨Or.inl rfl,
   (image_failure_modes "https://site/news/picture" (some "Title C") (some "Desc C")
      "https://cdn/img.jpg" ImgFetchEnv.netFail none none now2024).2.2.1 (Or.inl rfl)⟩

/-- C8: the retry policy returns the success value after two transient
failures with exactly the two backoff waits 1 and 2; exhausting all 3
attempts on transient failures re-raises the final transient error after
the same two waits (none after the last attempt); and a non-retryable
error propagates immediately with no wait. -/
theorem retry_policy_behavior (A : Type) (op : Nat → AttemptResult A) (a : A) :
    (op 1 = AttemptResult.transient → op 2 = AttemptResult.transient →
      op 3 = AttemptResult.ok a →
      retryRun op = (RetryOutcome.success a, [1, 2])) ∧
    (op 1 = AttemptResult.transient → op 2 = AttemptResult.transient →
      op 3 = AttemptResult.transient →
      retryRun op = (RetryOutcome.transientFailure, [1, 2])) ∧
    (op 1 = AttemptResult.fatal →
      retryRun op = (RetryOutcome.fatalFailure, [])) := by
  refine ⟨?_, ?_, ?_⟩
  · intro h1 h2 h3
    simp [retryRun, retryFrom, retryDelay, h1, h2, h3]
  · intro h1 h2 h3
    simp [retryRun, retryFrom, retryDelay, h1, h2, h3]
  · intro h1
    simp [retryRun, retryFrom, h1]

/-- C8, witness: concrete operations exercising all three behaviors. -/
theorem retry_policy_behavior_witness :
    (opThirdOk 1 = AttemptResult.transient ∧ opThirdOk 2 = AttemptResult.transient ∧
      opThirdOk 3 = AttemptResult.ok 7 ∧
      retryRun opThirdOk = (RetryOutcome.success 7, [1, 2])) ∧
    (retryRun opAllFail = (RetryOutcome.transientFailure, [1, 2])) ∧
    (retryRun opFatal = (RetryOutcome.fatalFailure, [])) :=
  ⟨⟨rfl, rfl, rfl,
    (retry_policy_behavior Nat opThirdOk 7).1 rfl rfl rfl⟩,
   (retry_policy_behavior Nat opAllFail 0).2.1 rfl rfl rfl,
   (retry_policy_behavior Nat opFatal 0).2.2 rfl⟩

/-- Running the loop over a prefix of pages that all fetch, continue and
navigate successfully just accumulates their articles. -/
theorem scrapeLoop_good_pages (mp : Int) (now : PyDateTime)
    (ps : List (List Article)) (rest : List PageStep) (acc : List Article)
    (h : ∀ p ∈ ps, should_continue_scraping_based_on_time (p.map Article.DateTime) mp now =
      Except.ok true) :
    scrapeLoop mp now (ps.map mkGoodStep ++ rest) acc =
      scrapeLoop mp now rest (acc ++ ps.flatten) := by
  induction ps generalizing acc with
  | nil => simp
  | cons p ps ih =>
    simp only [List.map_cons, List.cons_append, scrapeLoop, mkGoodStep]
    rw [h p (List.mem_cons_self p ps)]
    show scrapeLoop mp now (List.map mkGoodStep ps ++ rest) (acc ++ p) =
      scrapeLoop mp now rest (acc ++ (p :: ps).flatten)
    rw [ih (acc ++ p) (fun q hq => h q (List.mem_cons_of_mem p hq))]
    simp [List.flatten_cons, List.append_assoc]

/-- C9: when a page fetch raises `ScrapingError` (after retry
exhaustion), or navigation to the next page does, `start_scraping`
catches it, flips the continue flag, ends the loop, and returns exactly
the articles accumulated so far — the error never escapes and the partial
results are not discarded.  (On a navigation failure the page just
fetched was already appended, so it is included.) -/
theorem page_failure_keeps_collected (mp : Int) (now : PyDateTime)
    (ps : List (List Article)) (rest : List PageStep) (nav : Except ScrapingError Unit)
    (q : List Article)
    (h : ∀ p ∈ ps, should_continue_scraping_based_on_time (p.map Article.DateTime) mp now =
      Except.ok true)
    (hq : should_continue_scraping_based_on_time (q.map Article.DateTime) mp now =
      Except.ok true) :
    start_scraping (ps.map mkGoodStep ++ ⟨Except.error ScrapingError.mk, nav⟩ :: rest)
        mp now = Except.ok ps.flatten ∧
    start_scraping
        (ps.map mkGoodStep ++ ⟨Except.ok q, Except.error ScrapingError.mk⟩ :: rest)
        mp now = Except.ok (ps.flatten ++ q) := by
  constructor
  · unfold start_scraping
    rw [scrapeLoop_good_pages mp now ps _ [] h]
    simp [scrapeLoop]
  · unfold start_scraping
    rw [scrapeLoop_good_pages mp now ps _ [] h]
    simp only [scrapeLoop, List.nil_append]
    rw [hq]
    rfl

/-- C9, witness: one successful page, then a failing fetch (first
conjunct) or a successful fetch followed by a failing navigation (second
conjunct). -/
theorem page_failure_keeps_collected_witness :
    (∀ p ∈ [[artRecent]],
      should_continue_scraping_based_on_time (p.map Article.DateTime) 1 now2024 =
        Except.ok true) ∧
    start_scraping
        ([[artRecent]].map mkGoodStep ++ [⟨Except.error ScrapingError.mk, Except.ok ()⟩])
        1 now2024 = Except.ok [artRecent] ∧
    start_scraping
        ([[artRecent]].map mkGoodStep ++
          [⟨Except.ok [artRecent], Except.error ScrapingError.mk⟩])
        1 now2024 = Except.ok ([artRecent] ++ [artRecent]) :=
  ⟨by decide,
   (page_failure_keeps_collected 1 now2024 [[artRecent]] [] (Except.ok ()) [artRecent]
      (by decide) (by decide)).1,
   (page_failure_keeps_collected 1 now2024 [[artRecent]] [] (Except.ok ()) [artRecent]
      (by decide) (by decide)).2⟩

/-- Digit characters are digits. -/
theorem digitChar_isDigit (k : Nat) (h : k < 10) : (digitChar k).isDigit = true := by
  interval_cases k <;> decide

/-- Digit characters are not whitespace. -/
theorem digitChar_not_ws (k : Nat) (h : k < 10) : (digitChar k).isWhitespace = false := by
  interval_cases k <;> decide

/-- Digit value round-trip for a single digit. -/
theorem digitVal_digitChar (k : Nat) (h : k < 10) : digitVal (digitChar k) = k := by
  interval_cases k <;> decide

/-- Unfolding of the digit renderer on a small number (any fuel). -/
theorem decDigitsAux_small (f n : Nat) (h : n < 10) :
    decDigitsAux f n = [digitChar n] := by
  conv_lhs => rw [decDigitsAux.eq_def]
  rw [if_pos h]

/-- Unfolding of the digit renderer on a large number (positive fuel). -/
theorem decDigitsAux_big (f n : Nat) (h : 10 ≤ n) :
    decDigitsAux (f + 1) n = decDigitsAux f (n / 10) ++ [digitChar (n % 10)] := by
  conv_lhs => rw [decDigitsAux.eq_def]
  rw [if_neg (by omega)]

/-- The digit list of a four-digit number, with enough fuel. -/
theorem decDigitsAux_four (f n : Nat) (h1 : 1000 ≤ n) (h2 : n ≤ 9999) (hf : 3 ≤ f) :
    decDigitsAux f n =
      [digitChar (n / 1000), digitChar (n / 100 % 10),
        digitChar (n / 10 % 10), digitChar (n % 10)] := by
  obtain ⟨g, rfl⟩ : ∃ g, f = g + 3 := ⟨f - 3, by omega⟩
  rw [show g + 3 = (g + 2) + 1 from rfl, decDigitsAux_big (g + 2) n (by omega)]
  rw [show g + 2 = (g + 1) + 1 from rfl, decDigitsAux_big (g + 1) (n / 10) (by omega)]
  rw [decDigitsAux_big g (n / 10 / 10) (by omega)]
  rw [decDigitsAux_small g (n / 10 / 10 / 10) (by omega)]
  have d1 : n / 10 / 10 = n / 100 := by omega
  have d2 : n / 10 / 10 / 10 = n / 1000 := by omega
  rw [d2, d1]
  rfl

/-- The digit list Python's `str()` prints for a four-digit number. -/
theorem decDigits_four (n : Nat) (h1 : 1000 ≤ n) (h2 : n ≤ 9999) :
    decDigits n =
      [digitChar (n / 1000), digitChar (n / 100 % 10),
        digitChar (n / 10 % 10), digitChar (n % 10)] := by
  unfold decDigits
  exact decDigitsAux_four n n h1 h2 (by omega)

/-- Python `str()` of a four-digit year. -/
theorem intString_four (y : Int) (h1 : 1000 ≤ y) (h2 : y ≤ 9999) :
    intString y =
      String.mk
        [digitChar (y.toNat / 1000), digitChar (y.toNat / 100 % 10),
          digitChar (y.toNat / 10 % 10), digitChar (y.toNat % 10)] := by
  unfold intString
  rw [if_neg (by omega)]
  unfold decString
  rw [decDigits_four y.toNat (by omega) (by omega)]

/-- Evaluation of the strptime model on `'March 4, '` followed by four
digits: month `march`, day 4, and the four digits as the year. -/
theorem strptimeBdY_march4 (ka kb kc kd : Nat) (ha : ka < 10) (hb : kb < 10)
    (hc : kc < 10) (hd : kd < 10) (hy : 1 ≤ 1000 * ka + 100 * kb + 10 * kc + kd) :
    strptimeBdY
        ("March 4" ++ ", " ++
          String.mk [digitChar ka, digitChar kb, digitChar kc, digitChar kd]) =
      some ⟨((1000 * ka + 100 * kb + 10 * kc + kd : Nat) : Int), 3, 4, 0, 0⟩ := by
  have hws : skipWs [digitChar ka, digitChar kb, digitChar kc, digitChar kd] =
      [digitChar ka, digitChar kb, digitChar kc, digitChar kd] := by
    simp [skipWs, digitChar_not_ws ka ha]
  have step1 : strptimeBdY
      ("March 4" ++ ", " ++
        String.mk [digitChar ka, digitChar kb, digitChar kc, digitChar kd]) =
      (year4 (skipWs [digitChar ka, digitChar kb, digitChar kc, digitChar kd])).bind
        (fun y => finishBdY y 3 4) := rfl
  have hyear : year4 [digitChar ka, digitChar kb, digitChar kc, digitChar kd] =
      some (1000 * ka + 100 * kb + 10 * kc + kd) := by
    simp [year4, digitChar_isDigit ka ha, digitChar_isDigit kb hb,
      digitChar_isDigit kc hc, digitChar_isDigit kd hd,
      digitVal_digitChar ka ha, digitVal_digitChar kb hb,
      digitVal_digitChar kc hc, digitVal_digitChar kd hd]
  rw [step1, hws, hyear]
  show finishBdY (1000 * ka + 100 * kb + 10 * kc + kd) 3 4 = _
  have hdm : daysInMonth ((1000 * ka + 100 * kb + 10 * kc + kd : Nat) : Int) 3 = 31 := rfl
  unfold finishBdY
  rw [hdm, if_pos ⟨hy, by omega, by omega⟩]

/-- Evaluation of `parse_date` on `'March 4'`: the current year (rendered
by `str()` as four digits) is appended and the absolute branch parses it
back, yielding March 4 of the reference year at midnight. -/
theorem parse_date_march4 (now : PyDateTime) (h1 : 1000 ≤ now.year)
    (h2 : now.year ≤ 9999) :
    parse_date "March 4" now = Except.ok (isoformatMinutes ⟨now.year, 3, 4, 0, 0⟩) := by
  have hstep : parse_date "March 4" now =
      (match strptimeBdY ("March 4" ++ ", " ++ intString now.year) with
       | none => Except.ok ERROR_DATE_PROCESSING
       | some d => Except.ok (isoformatMinutes d)) := rfl
  rw [hstep, intString_four now.year h1 h2]
  rw [strptimeBdY_march4 (now.year.toNat / 1000) (now.year.toNat / 100 % 10)
    (now.year.toNat / 10 % 10) (now.year.toNat % 10)
    (by omega) (by omega) (by omega) (by omega) (by omega)]
  have hval : 1000 * (now.year.toNat / 1000) + 100 * (now.year.toNat / 100 % 10) +
      10 * (now.year.toNat / 10 % 10) + now.year.toNat % 10 = now.year.toNat := by omega
  rw [hval, Int.toNat_of_nonneg (by omega)]

/-- C7: on every reference instant with a four-digit year, `parse_date`
maps `'2 hours ago'` to the reference minus 2 hours at minute precision,
`'yesterday'` to the reference minus 1 day, `'March 4'` to March 4 of the
reference year at minute precision, and `'not a date'` to the parse-error
sentinel (returned, not raised). -/
theorem parse_date_examples (now : PyDateTime) (h1 : 1000 ≤ now.year)
    (h2 : now.year ≤ 9999) :
    parse_date "2 hours ago" now = Except.ok (isoformatMinutes (subMinutes now 120)) ∧
    parse_date "yesterday" now = Except.ok (isoformatMinutes (subMinutes now 1440)) ∧
    parse_date "March 4" now = Except.ok (isoformatMinutes ⟨now.year, 3, 4, 0, 0⟩) ∧
    parse_date "not a date" now = Except.ok ERROR_DATE_PROCESSING := by
  refine ⟨rfl, rfl, parse_date_march4 now h1 h2, rfl⟩

/-- C7, witness at the leap-month boundary 2024-03-01 01:30: two hours
earlier is 2024-02-29 23:30 and one day earlier is 2024-02-29 01:30. -/
theorem parse_date_examples_witness :
    ((1000 : Int) ≤ nowMar1.year ∧ nowMar1.year ≤ 9999) ∧
    (parse_date "2 hours ago" nowMar1 =
        Except.ok (isoformatMinutes (subMinutes nowMar1 120)) ∧
      parse_date "yesterday" nowMar1 =
        Except.ok (isoformatMinutes (subMinutes nowMar1 1440)) ∧
      parse_date "March 4" nowMar1 =
        Except.ok (isoformatMinutes ⟨nowMar1.year, 3, 4, 0, 0⟩) ∧
      parse_date "not a date" nowMar1 = Except.ok ERROR_DATE_PROCESSING) ∧
    isoformatMinutes (subMinutes nowMar1 120) = "2024-02-29T23:30" ∧
    isoformatMinutes (subMinutes nowMar1 1440) = "2024-02-29T01:30" :=
  ⟨⟨by decide, by decide⟩,
   parse_date_examples nowMar1 (by decide) (by decide),
   by decide, by decide⟩
